import Mathlib

/-!
Verification of the three geocoder clients (Baidu, GaoDe, Tencent) of this
repository.  The JSON response bodies are modelled by an inductive value
type; Python's dynamic operations used by the parsers (`dict.get`,
subscripts, `in`, truthiness, `str.split`, `==` across int/str) are given
explicit, executable semantics; the parsing and status-checking functions
are transcribed from the sources, with exceptions modelled by `Except`.
-/

/-- A parsed JSON value, as the Python `json` module would produce it
(Python `None` and JSON `null` are identified). -/
inductive JsonValue where
  | null
  | bool (b : Bool)
  | int (n : Int)
  | num (q : Rat)
  | str (s : String)
  | arr (items : List JsonValue)
  | obj (fields : List (String × JsonValue))

mutual

/-- Boolean equality on JSON values (Python `==` between two parsed JSON
values of the same shape). -/
def JsonValue.beq : JsonValue → JsonValue → Bool
  | .null, .null => true
  | .bool a, .bool b => a == b
  | .int a, .int b => a == b
  | .num a, .num b => a == b
  | .str a, .str b => a == b
  | .arr a, .arr b => JsonValue.beqList a b
  | .obj a, .obj b => JsonValue.beqFields a b
  | _, _ => false

/-- Elementwise equality of JSON arrays. -/
def JsonValue.beqList : List JsonValue → List JsonValue → Bool
  | [], [] => true
  | a :: as, b :: bs => JsonValue.beq a b && JsonValue.beqList as bs
  | _, _ => false

/-- Pairwise equality of JSON object field lists. -/
def JsonValue.beqFields :
    List (String × JsonValue) → List (String × JsonValue) → Bool
  | [], [] => true
  | (k, v) :: as, (l, w) :: bs =>
    k == l && JsonValue.beq v w && JsonValue.beqFields as bs
  | _, _ => false

end

instance : BEq JsonValue := ⟨JsonValue.beq⟩

/-- Python truthiness of a value (`if not place:` tests). -/
def truthy : JsonValue → Bool
  | .null => false
  | .bool b => b
  | .int n => n != 0
  | .num q => q != 0
  | .str s => s != ""
  | .arr items => !items.isEmpty
  | .obj fields => !fields.isEmpty

/-- Python `v == s` for a string literal `s`: only a `str` value can
compare equal to a string. -/
def pyEqStr (v : JsonValue) (s : String) : Bool :=
  match v with
  | .str t => t == s
  | _ => false

/-- Python `v == n` for an integer literal `n`: ints compare by value,
bools as 0/1, floats numerically; other types are unequal. -/
def pyEqInt (v : JsonValue) (n : Int) : Bool :=
  match v with
  | .int m => m == n
  | .bool b => (if b then (1 : Int) else 0) == n
  | .num q => q == (n : Rat)
  | _ => false

/-- The exceptions raised by the geocoder status checks
(`geopy.exc.GeocoderQueryError` and friends), with their messages. -/
inductive GeocoderExc where
  | GeocoderQueryError (msg : String)
  | GeocoderAuthenticationFailure (msg : String)
  | GeocoderQuotaExceeded (msg : String)
deriving DecidableEq, Repr

/-- Exceptions a parse routine can raise: a geocoder error from
`_check_status`, or a Python runtime error from a dynamic operation. -/
inductive PyExc where
  | geocoder (e : GeocoderExc)
  | attributeError
  | keyError
  | indexError
  | typeError
deriving DecidableEq, Repr

/-- Python `v.get(k)`: returns the value (or `None` for a missing key) when
`v` is a dict, and raises `AttributeError` otherwise. -/
def pyGet (v : JsonValue) (k : String) : Except PyExc JsonValue :=
  match v with
  | .obj fields => .ok ((fields.lookup k).getD .null)
  | _ => .error .attributeError

/-- Python `v[k]` for a string key: `KeyError` on a dict missing the key,
`TypeError` on non-dict values. -/
def pySubscript (v : JsonValue) (k : String) : Except PyExc JsonValue :=
  match v with
  | .obj fields =>
    match fields.lookup k with
    | some x => .ok x
    | none => .error .keyError
  | _ => .error .typeError

/-- Python `v[i]` for an integer index: indexes lists and strings,
raises `KeyError` on dicts (the int key is absent) and `TypeError`
otherwise. -/
def pySubscriptNat (v : JsonValue) (i : Nat) : Except PyExc JsonValue :=
  match v with
  | .arr items =>
    match items[i]? with
    | some x => .ok x
    | none => .error .indexError
  | .str s =>
    match s.toList[i]? with
    | some c => .ok (.str (String.mk [c]))
    | none => .error .indexError
  | .obj _ => .error .keyError
  | _ => .error .typeError

/-- Python iteration (`for item in place`): lists yield their items, dicts
their keys, strings their characters; other values raise `TypeError`. -/
def pyIter (v : JsonValue) : Except PyExc (List JsonValue) :=
  match v with
  | .arr items => .ok items
  | .obj fields => .ok (fields.map (fun p => .str p.1))
  | .str s => .ok (s.toList.map (fun c => .str (String.mk [c])))
  | _ => .error .typeError

/-- Python `v.encode(...)` as used on address strings: succeeds exactly on
strings (the byte/str distinction is immaterial here), raises
`AttributeError` otherwise, e.g. when `v` is `None`. -/
def pyEncode (v : JsonValue) : Except PyExc JsonValue :=
  match v with
  | .str s => .ok (.str s)
  | _ => .error .attributeError

/-- Worker for `splitComma`: walks the characters, cutting at commas. -/
def splitCommaAux : List Char → List Char → List String
  | [], acc => [String.mk acc.reverse]
  | c :: rest, acc =>
    if c = ',' then String.mk acc.reverse :: splitCommaAux rest []
    else splitCommaAux rest (c :: acc)

/-- Python `s.split(",")`: cut the string at every comma (an empty string
yields `[""]`, matching Python's behaviour for an explicit separator). -/
def splitComma (s : String) : List String :=
  splitCommaAux s.toList []

/-- Python `v.split(",")` on a string value; `AttributeError` when `v` is
not a string (e.g. `None`). -/
def pySplitComma (v : JsonValue) : Except PyExc (List String) :=
  match v with
  | .str s => .ok (splitComma s)
  | _ => .error .attributeError

/-- Python `k in v` for a string `k`: key membership on dicts, substring
test on strings, element membership on lists; `TypeError` otherwise. -/
def pyContains (v : JsonValue) (k : String) : Except PyExc Bool :=
  match v with
  | .obj fields => .ok (fields.lookup k).isSome
  | .str s => .ok (k == "" || (s.splitOn k).length != 1)
  | .arr items => .ok (items.contains (.str k))
  | _ => .error .typeError

/-- Python `l[i]` on a list of strings (the split coordinates). -/
def pyIdx (l : List String) (i : Nat) : Except PyExc String :=
  match l[i]? with
  | some x => .ok x
  | none => .error .indexError

/-- The shared result value (`geopy.location.Location`): display name,
latitude, longitude, and the raw provider payload, exactly the four values
the parsers pass to its constructor. -/
structure Location where
  name : JsonValue
  latitude : JsonValue
  longitude : JsonValue
  raw : JsonValue

/-- The value a parse routine returns on success: Python `None`, a single
`Location`, or a list of `Location`s. -/
inductive ParseValue where
  | pyNone
  | loc (l : Location)
  | locs (ls : List Location)

/-- Lift a status-check outcome into the parser's exception monad. -/
def liftGeo : Except GeocoderExc Unit → Except PyExc Unit
  | .ok () => .ok ()
  | .error e => .error (.geocoder e)

/-- The four possible outcomes of a status check, forgetting messages. -/
inductive StatusOutcome where
  | ok
  | queryError
  | authFailure
  | quotaExceeded
deriving DecidableEq, Repr

/-- Classify a status-check result by the kind of exception (if any). -/
def statusOutcome : Except GeocoderExc Unit → StatusOutcome
  | .ok () => .ok
  | .error (.GeocoderQueryError _) => .queryError
  | .error (.GeocoderAuthenticationFailure _) => .authFailure
  | .error (.GeocoderQuotaExceeded _) => .quotaExceeded

/-- A value the providers can actually put in their status field: an
integer, a string, or `null`/missing (the spec's data model: "an opaque
string or integer"). -/
def isStatusValue : JsonValue → Bool
  | .int _ => true
  | .str _ => true
  | .null => true
  | _ => false

namespace Baidu

/-- `Baidu._check_status` transcribed branch by branch. -/
def check_status (status : JsonValue) : Except GeocoderExc Unit :=
  if pyEqStr status "0" || pyEqInt status 0 then
    .ok ()
  else if pyEqStr status "1" || pyEqInt status 1 then
    .error (.GeocoderQueryError "Internal server error.")
  else if pyEqStr status "2" || pyEqInt status 2 then
    .error (.GeocoderQueryError "Invalid request.")
  else if pyEqStr status "3" || pyEqInt status 3 then
    .error (.GeocoderAuthenticationFailure "Authentication failure.")
  else if pyEqStr status "4" || pyEqInt status 4 then
    .error (.GeocoderQuotaExceeded "Quota validate failure.")
  else if pyEqStr status "5" || pyEqInt status 5 then
    .error (.GeocoderQueryError "AK Illegal or Not Exist.")
  else if pyEqStr status "101" || pyEqInt status 101 then
    .error (.GeocoderQueryError "Your request was denied.")
  else if pyEqStr status "102" || pyEqInt status 102 then
    .error (.GeocoderQueryError "IP/SN/SCODE/REFERER Illegal:")
  else if pyEqStr status "2xx" then
    .error (.GeocoderQueryError "Has No Privilleges.")
  else if pyEqStr status "3xx" then
    .error (.GeocoderQuotaExceeded "Quota Error.")
  else
    .error (.GeocoderQueryError "Unknown error")

end Baidu

namespace GaoDe

/-- `GaoDe._check_status` transcribed branch by branch (all comparisons are
against string literals). -/
def check_status (status : JsonValue) : Except GeocoderExc Unit :=
  if pyEqStr status "10000" then
    .ok ()
  else if pyEqStr status "10001" then
    .error (.GeocoderAuthenticationFailure "Invalid user key.")
  else if pyEqStr status "10002" then
    .error (.GeocoderAuthenticationFailure "Service not available.")
  else if pyEqStr status "10003" then
    .error (.GeocoderQuotaExceeded "Daily query over limit.")
  else if pyEqStr status "10004" then
    .error (.GeocoderQuotaExceeded "Access too frequent.")
  else if pyEqStr status "10005" then
    .error (.GeocoderQueryError "Invalid user IP.")
  else if pyEqStr status "10006" then
    .error (.GeocoderQueryError "Invalid user domain.")
  else if pyEqStr status "10007" then
    .error (.GeocoderQueryError "Invalid user signature")
  else if pyEqStr status "10008" then
    .error (.GeocoderQueryError "Invalid user scode.")
  else if pyEqStr status "10009" then
    .error (.GeocoderQuotaExceeded "Userkey plat nomatch.")
  else if pyEqStr status "10010" then
    .error (.GeocoderQuotaExceeded "IP query over limit.")
  else if pyEqStr status "10011" then
    .error (.GeocoderQuotaExceeded "Not support https.")
  else if pyEqStr status "10012" then
    .error (.GeocoderQuotaExceeded "Insufficient privileges.")
  else if pyEqStr status "10013" then
    .error (.GeocoderQuotaExceeded "User key recycled.")
  else if pyEqStr status "10014" then
    .error (.GeocoderQuotaExceeded "QPS has exceeded the limit.")
  else if pyEqStr status "10015" then
    .error (.GeocoderQuotaExceeded "Gateway timeout.")
  else if pyEqStr status "10016" then
    .error (.GeocoderQuotaExceeded "Server is busy.")
  else if pyEqStr status "10017" then
    .error (.GeocoderQuotaExceeded "Resource unavailable.")
  else if pyEqStr status "20000" then
    .error (.GeocoderQuotaExceeded "Invalid params.")
  else if pyEqStr status "20001" then
    .error (.GeocoderQuotaExceeded "Missing required params.")
  else if pyEqStr status "20002" then
    .error (.GeocoderQuotaExceeded "Illegal request.")
  else if pyEqStr status "20003" then
    .error (.GeocoderQuotaExceeded "Unknown error.")
  else if pyEqStr status "20800" then
    .error (.GeocoderQuotaExceeded "Out of service.")
  else if pyEqStr status "20801" then
    .error (.GeocoderQuotaExceeded "No roads nearby.")
  else if pyEqStr status "20802" then
    .error (.GeocoderQuotaExceeded "Route fail.")
  else if pyEqStr status "20803" then
    .error (.GeocoderQuotaExceeded "Over direction range.")
  else if pyEqStr status "300**" then
    .error (.GeocoderQuotaExceeded "Engine response data error.")
  else
    .error (.GeocoderQueryError "Unknown error")

end GaoDe

namespace Tencent

/-- `Tencent._check_status` transcribed branch by branch (all comparisons
are against integer literals). -/
def check_status (status : JsonValue) : Except GeocoderExc Unit :=
  if pyEqInt status 0 then
    .ok ()
  else if pyEqInt status 110 then
    .error (.GeocoderQueryError "请求来源未被授权.")
  else if pyEqInt status 306 then
    .error (.GeocoderQueryError "请求有护持信息请检查字符串.")
  else if pyEqInt status 310 then
    .error (.GeocoderAuthenticationFailure "请求参数信息有误.")
  else if pyEqInt status 311 then
    .error (.GeocoderQuotaExceeded "key格式错误.")
  else
    .error (.GeocoderQueryError "Unknown error")

end Tencent

/-- Modelled from the spec: the base-class helper
`Geocoder._coerce_point_to_string` (defined in `geopy.geocoders.base`,
outside these sources) coerces a (latitude, longitude) point into the
"lat,lng" textual format sent to the provider; the two coordinates are
taken here as their decimal strings. -/
def coerce_point_to_string (latitude longitude : String) : String :=
  latitude ++ "," ++ longitude

namespace Baidu

/-- The inner `parse_place` of `Baidu._parse_json`. -/
def parse_place_geocode (place : JsonValue) : Except PyExc Location :=
  match pyGet place "level" with
  | .error e => .error e
  | .ok location =>
    match pySubscript place "location" with
    | .error e => .error e
    | .ok locfield =>
      match pySubscript locfield "lat" with
      | .error e => .error e
      | .ok latitude =>
        match pySubscript locfield "lng" with
        | .error e => .error e
        | .ok longitude => .ok ⟨location, latitude, longitude, place⟩

/-- `Baidu._parse_json`. -/
def parse_json (page : JsonValue) (exactly_one : Bool) :
    Except PyExc ParseValue :=
  match pyGet page "result" with
  | .error e => .error e
  | .ok place =>
    if truthy place = false then
      match pyGet page "status" with
      | .error e => .error e
      | .ok status =>
        match check_status status with
        | .error e => .error (.geocoder e)
        | .ok () => .ok .pyNone
    else if exactly_one then
      match parse_place_geocode place with
      | .error e => .error e
      | .ok l => .ok (.loc l)
    else
      match pyIter place with
      | .error e => .error e
      | .ok items =>
        match items.mapM parse_place_geocode with
        | .error e => .error e
        | .ok ls => .ok (.locs ls)

/-- The inner `parse_place` of `Baidu._parse_search_json`: returns Python
`None` when the entry has no `location` field. -/
def parse_place_search (place : JsonValue) : Except PyExc (Option Location) :=
  match pyGet place "address" with
  | .error e => .error e
  | .ok location =>
    match pyContains place "location" with
    | .error e => .error e
    | .ok present =>
      if present = false then .ok none
      else
        match pySubscript place "location" with
        | .error e => .error e
        | .ok locfield =>
          match pySubscript locfield "lat" with
          | .error e => .error e
          | .ok latitude =>
            match pySubscript locfield "lng" with
            | .error e => .error e
            | .ok longitude =>
              .ok (some ⟨location, latitude, longitude, place⟩)

/-- The accumulation loop of `Baidu._parse_search_json` (`for item in
place: ... if parse: res.append(parse)`); a `Location` is always truthy. -/
def search_collect (items : List JsonValue) : Except PyExc (List Location) :=
  match items with
  | [] => .ok []
  | item :: rest =>
    match parse_place_search item with
    | .error e => .error e
    | .ok parse =>
      match search_collect rest with
      | .error e => .error e
      | .ok res =>
        match parse with
        | some l => .ok (l :: res)
        | none => .ok res

/-- `Baidu._parse_search_json`. -/
def parse_search_json (page : JsonValue) (exactly_one : Bool) :
    Except PyExc ParseValue :=
  match pyGet page "results" with
  | .error e => .error e
  | .ok place =>
    if truthy place = false then
      match pyGet page "status" with
      | .error e => .error e
      | .ok status =>
        match check_status status with
        | .error e => .error (.geocoder e)
        | .ok () => .ok (.locs [])
    else if exactly_one then
      match pySubscriptNat place 0 with
      | .error e => .error e
      | .ok first =>
        match parse_place_search first with
        | .error e => .error e
        | .ok (some l) => .ok (.loc l)
        | .ok none => .ok .pyNone
    else
      match pyIter place with
      | .error e => .error e
      | .ok items =>
        match search_collect items with
        | .error e => .error e
        | .ok ls => .ok (.locs ls)

/-- `Baidu._parse_reverse_json`. -/
def parse_reverse_json (page : JsonValue) : Except PyExc Location :=
  match pyGet page "result" with
  | .error e => .error e
  | .ok place =>
    match pyGet place "formatted_address" with
    | .error e => .error e
    | .ok addr =>
      match pyEncode addr with
      | .error e => .error e
      | .ok location =>
        match pySubscript place "location" with
        | .error e => .error e
        | .ok locfield =>
          match pySubscript locfield "lat" with
          | .error e => .error e
          | .ok latitude =>
            match pySubscript locfield "lng" with
            | .error e => .error e
            | .ok longitude => .ok ⟨location, latitude, longitude, place⟩

end Baidu

namespace GaoDe

/-- The inner `parse_place` of `GaoDe._parse_json`: the `location` string
is split on `","`; its first component becomes the longitude and its
second the latitude. -/
def parse_place_geocode (place : JsonValue) : Except PyExc Location :=
  match pyGet place "formatted_address" with
  | .error e => .error e
  | .ok location =>
    match pyGet place "location" with
    | .error e => .error e
    | .ok locstr =>
      match pySplitComma locstr with
      | .error e => .error e
      | .ok coordinate =>
        match pyIdx coordinate 0 with
        | .error e => .error e
        | .ok longitude =>
          match pyIdx coordinate 1 with
          | .error e => .error e
          | .ok latitude =>
            .ok ⟨location, .str latitude, .str longitude, place⟩

/-- `GaoDe._parse_json`. -/
def parse_json (page : JsonValue) (exactly_one : Bool) :
    Except PyExc ParseValue :=
  match pyGet page "geocodes" with
  | .error e => .error e
  | .ok place =>
    if truthy place = false then
      match pyGet page "infocode" with
      | .error e => .error e
      | .ok infocode =>
        match check_status infocode with
        | .error e => .error (.geocoder e)
        | .ok () => .ok .pyNone
    else if exactly_one then
      match pySubscriptNat place 0 with
      | .error e => .error e
      | .ok first =>
        match parse_place_geocode first with
        | .error e => .error e
        | .ok l => .ok (.loc l)
    else
      match pyIter place with
      | .error e => .error e
      | .ok items =>
        match items.mapM parse_place_geocode with
        | .error e => .error e
        | .ok ls => .ok (.locs ls)

/-- `GaoDe._parse_reverse_json`: the result's latitude is `point[1]` and
its longitude `point[0]`, where `point` is the split request coordinate
string. -/
def parse_reverse_json (page : JsonValue) (point : List String) :
    Except PyExc Location :=
  match pyGet page "regeocode" with
  | .error e => .error e
  | .ok place =>
    match pyGet place "formatted_address" with
    | .error e => .error e
    | .ok addr =>
      match pyEncode addr with
      | .error e => .error e
      | .ok location =>
        match pyIdx point 1 with
        | .error e => .error e
        | .ok latitude =>
          match pyIdx point 0 with
          | .error e => .error e
          | .ok longitude =>
            .ok ⟨location, .str latitude, .str longitude, place⟩

/-- `GaoDe.reverse`: the data flow around the HTTP call — the `location`
request parameter is built from the input point, and the provider's
response `page` is parsed together with `location.split(",")`. -/
def reverse (latitude longitude : String) (page : JsonValue) :
    Except PyExc Location :=
  let location := coerce_point_to_string latitude longitude
  parse_reverse_json page (splitComma location)

end GaoDe

namespace Tencent

/-- The inner `parse_place` of `Tencent._parse_json`. -/
def parse_place_geocode (place : JsonValue) : Except PyExc Location :=
  match pyGet place "title" with
  | .error e => .error e
  | .ok location =>
    match pySubscript place "location" with
    | .error e => .error e
    | .ok locfield =>
      match pySubscript locfield "lat" with
      | .error e => .error e
      | .ok latitude =>
        match pySubscript locfield "lng" with
        | .error e => .error e
        | .ok longitude => .ok ⟨location, latitude, longitude, place⟩

/-- `Tencent._parse_json`. -/
def parse_json (page : JsonValue) (exactly_one : Bool) :
    Except PyExc ParseValue :=
  match pyGet page "result" with
  | .error e => .error e
  | .ok place =>
    if truthy place = false then
      match pyGet page "status" with
      | .error e => .error e
      | .ok status =>
        match check_status status with
        | .error e => .error (.geocoder e)
        | .ok () => .ok .pyNone
    else if exactly_one then
      match parse_place_geocode place with
      | .error e => .error e
      | .ok l => .ok (.loc l)
    else
      match pyIter place with
      | .error e => .error e
      | .ok items =>
        match items.mapM parse_place_geocode with
        | .error e => .error e
        | .ok ls => .ok (.locs ls)

/-- `Tencent._parse_reverse_json`. -/
def parse_reverse_json (page : JsonValue) : Except PyExc Location :=
  match pyGet page "result" with
  | .error e => .error e
  | .ok place =>
    match pySubscript place "formatted_address" with
    | .error e => .error e
    | .ok fa =>
      match pySubscript fa "recommend" with
      | .error e => .error e
      | .ok rec =>
        match pyEncode rec with
        | .error e => .error e
        | .ok location =>
          match pySubscript place "location" with
          | .error e => .error e
          | .ok locfield =>
            match pySubscript locfield "lat" with
            | .error e => .error e
            | .ok latitude =>
              match pySubscript locfield "lng" with
              | .error e => .error e
              | .ok longitude => .ok ⟨location, latitude, longitude, place⟩

end Tencent

/-- The value `v` is exactly the integer `n` (a table entry in integer
form). -/
def isInt (v : JsonValue) (n : Int) : Bool :=
  match v with
  | .int m => m == n
  | _ => false

/-- The value `v` is exactly the string `t` (a table entry in string
form). -/
def isStr (v : JsonValue) (t : String) : Bool :=
  match v with
  | .str s => s == t
  | _ => false

/-- The Baidu status table as the spec states it: integer 0 or string "0"
is success; 1, 2, 5, 101 (integer or string form) and the string "2xx" are
query errors; 3 is an authentication failure; 4 and the string "3xx" are
quota errors; every other value is a query error. -/
def baiduSpecKind (v : JsonValue) : StatusOutcome :=
  if isInt v 0 || isStr v "0" then .ok
  else if isInt v 1 || isStr v "1" || isInt v 2 || isStr v "2" ||
      isInt v 5 || isStr v "5" || isInt v 101 || isStr v "101" ||
      isStr v "2xx" then .queryError
  else if isInt v 3 || isStr v "3" then .authFailure
  else if isInt v 4 || isStr v "4" || isStr v "3xx" then .quotaExceeded
  else .queryError

/-- The GaoDe status table as the spec states it, with the quota range
"20000"–"20803" narrowed to the codes the table actually contains
("20000"–"20003" and "20800"–"20803"): "10000" is success; "10001" and
"10002" are authentication failures; "10003", "10004", "10009"–"10017",
"20000"–"20003", "20800"–"20803" and "300**" are quota errors;
"10005"–"10008" are query errors; every other string is a query error. -/
def gaodeSpecKind (s : String) : StatusOutcome :=
  if s == "10000" then .ok
  else if s == "10001" || s == "10002" then .authFailure
  else if s == "10003" || s == "10004" ||
      s == "10009" || s == "10010" || s == "10011" || s == "10012" ||
      s == "10013" || s == "10014" || s == "10015" || s == "10016" ||
      s == "10017" ||
      s == "20000" || s == "20001" || s == "20002" || s == "20003" ||
      s == "20800" || s == "20801" || s == "20802" || s == "20803" ||
      s == "300**" then .quotaExceeded
  else if s == "10005" || s == "10006" || s == "10007" || s == "10008" then
    .queryError
  else .queryError

/-- The Tencent status table as the spec states it: integer 0 is success;
110 and 306 are query errors; 310 is an authentication failure; 311 is a
quota error; every other value is a query error. -/
def tencentSpecKind (v : JsonValue) : StatusOutcome :=
  if isInt v 0 then .ok
  else if isInt v 110 || isInt v 306 then .queryError
  else if isInt v 310 then .authFailure
  else if isInt v 311 then .quotaExceeded
  else .queryError

/-- The statuses Baidu's table knows, in the sense of Python `==`: the
codes 0–5, 101, 102 in integer or string form, plus "2xx" and "3xx". -/
def baiduKnownStatus (v : JsonValue) : Bool :=
  pyEqStr v "0" || pyEqInt v 0 || pyEqStr v "1" || pyEqInt v 1 ||
  pyEqStr v "2" || pyEqInt v 2 || pyEqStr v "3" || pyEqInt v 3 ||
  pyEqStr v "4" || pyEqInt v 4 || pyEqStr v "5" || pyEqInt v 5 ||
  pyEqStr v "101" || pyEqInt v 101 || pyEqStr v "102" || pyEqInt v 102 ||
  pyEqStr v "2xx" || pyEqStr v "3xx"

/-- The statuses GaoDe's table knows: the strings "10000"–"10017",
"20000"–"20003", "20800"–"20803" and "300**". -/
def gaodeKnownStatus (v : JsonValue) : Bool :=
  pyEqStr v "10000" || pyEqStr v "10001" || pyEqStr v "10002" ||
  pyEqStr v "10003" || pyEqStr v "10004" || pyEqStr v "10005" ||
  pyEqStr v "10006" || pyEqStr v "10007" || pyEqStr v "10008" ||
  pyEqStr v "10009" || pyEqStr v "10010" || pyEqStr v "10011" ||
  pyEqStr v "10012" || pyEqStr v "10013" || pyEqStr v "10014" ||
  pyEqStr v "10015" || pyEqStr v "10016" || pyEqStr v "10017" ||
  pyEqStr v "20000" || pyEqStr v "20001" || pyEqStr v "20002" ||
  pyEqStr v "20003" || pyEqStr v "20800" || pyEqStr v "20801" ||
  pyEqStr v "20802" || pyEqStr v "20803" || pyEqStr v "300**"

/-- The statuses Tencent's table knows: the integers 0, 110, 306, 310
and 311. -/
def tencentKnownStatus (v : JsonValue) : Bool :=
  pyEqInt v 0 || pyEqInt v 110 || pyEqInt v 306 ||
  pyEqInt v 310 || pyEqInt v 311

/-- Field lookup with Python's `None` default, for stating results about
well-formed entries. -/
def objGetD (v : JsonValue) (k : String) : JsonValue :=
  match v with
  | .obj fields => (fields.lookup k).getD .null
  | _ => .null

/-- The entry is a JSON object with a `location` field. -/
def hasLocationKey (e : JsonValue) : Bool :=
  match e with
  | .obj fields => (fields.lookup "location").isSome
  | _ => false

/-- A well-formed Baidu search hit: a JSON object whose `location` field,
when present, is an object carrying `lat` and `lng`. -/
def goodSearchEntry (e : JsonValue) : Bool :=
  match e with
  | .obj fields =>
    match fields.lookup "location" with
    | none => true
    | some (.obj lf) => (lf.lookup "lat").isSome && (lf.lookup "lng").isSome
    | some _ => false
  | _ => false

/-- The `Location` Baidu's search parser builds from a hit that has a
`location` field. -/
def baiduSearchLoc (e : JsonValue) : Location :=
  ⟨objGetD e "address", objGetD (objGetD e "location") "lat",
   objGetD (objGetD e "location") "lng", e⟩

/-- The single geocode entry of the spec's GaoDe example. -/
def gaodeExamplePlace : JsonValue :=
  .obj [("formatted_address", .str "X"), ("location", .str "-77.1,38.9")]

/-- The GaoDe geocode response of the spec's example: status "10000" and
one geocode entry. -/
def gaodeExamplePage : JsonValue :=
  .obj [("infocode", .str "10000"), ("geocodes", .arr [gaodeExamplePlace])]

/-- The `regeocode` payload of a GaoDe reverse response whose formatted
address is "X" (the payload carries no coordinates). -/
def gaodeReversePlace : JsonValue :=
  .obj [("formatted_address", .str "X")]

/-- A GaoDe reverse-geocoding response page. -/
def gaodeReversePage : JsonValue :=
  .obj [("regeocode", gaodeReversePlace)]

/-- A response with a success status and no result field (used by the
three providers alike: `status` for Baidu and Tencent, `infocode` for
GaoDe). -/
def emptyOkPage : JsonValue :=
  .obj [("status", .int 0), ("infocode", .str "10000")]

/-- A Baidu geocode result payload with one place. -/
def baiduOnePlace : JsonValue :=
  .obj [("level", .str "道路"),
        ("location", .obj [("lat", .num 39), ("lng", .num 116)])]

/-- A Baidu geocode response with one result. -/
def baiduOnePage : JsonValue :=
  .obj [("status", .int 0), ("result", baiduOnePlace)]

/-- A Tencent geocode result payload with one place. -/
def tencentOnePlace : JsonValue :=
  .obj [("title", .str "北京"),
        ("location", .obj [("lat", .num 39), ("lng", .num 116)])]

/-- A Tencent geocode response with one result. -/
def tencentOnePage : JsonValue :=
  .obj [("status", .int 0), ("result", tencentOnePlace)]

/-- A Baidu search hit that has a `location` field. -/
def searchEntryWith : JsonValue :=
  .obj [("address", .str "a"),
        ("location", .obj [("lat", .num 1), ("lng", .num 2)])]

/-- A Baidu search hit that lacks a `location` field. -/
def searchEntryWithout : JsonValue :=
  .obj [("address", .str "b")]

/-- C4: Tencent's status-check function maps status values exactly as the
spec's table states (0 ok; 110/306 query error; 310 authentication
failure; 311 quota exceeded; anything else query error), and a Tencent
geocode response with status 311 raises `GeocoderQuotaExceeded`. -/
theorem tencent_status_table :
    (∀ v : JsonValue, isStatusValue v = true →
      statusOutcome (Tencent.check_status v) = tencentSpecKind v) ∧
    Tencent.parse_json (.obj [("status", .int 311)]) true
      = .error (.geocoder (.GeocoderQuotaExceeded "key格式错误.")) := by
  constructor
  · intro v hv
    cases v with
    | null => rfl
    | bool b => simp [isStatusValue] at hv
    | num q => simp [isStatusValue] at hv
    | arr items => simp [isStatusValue] at hv
    | obj fields => simp [isStatusValue] at hv
    | str s => rfl
    | int n =>
      by_cases h0 : n = 0
      · subst h0; rfl
      by_cases h110 : n = 110
      · subst h110; rfl
      by_cases h306 : n = 306
      · subst h306; rfl
      by_cases h310 : n = 310
      · subst h310; rfl
      by_cases h311 : n = 311
      · subst h311; rfl
      have hL : statusOutcome (Tencent.check_status (.int n)) = .queryError := by
        simp [Tencent.check_status, pyEqInt, h0, h110, h306, h310, h311,
          statusOutcome]
      have hR : tencentSpecKind (.int n) = .queryError := by
        simp [tencentSpecKind, isInt, h0, h110, h306, h310, h311]
      rw [hL, hR]
  · rfl

/-- C4 witness: the table theorem applied at the concrete status 310. -/
theorem tencent_status_table_witness :
    isStatusValue (.int 310) = true ∧
    statusOutcome (Tencent.check_status (.int 310)) = tencentSpecKind (.int 310) :=
  ⟨rfl, tencent_status_table.1 (.int 310) rfl⟩

/-- C3: Baidu's status-check function maps status values exactly as the
spec's table states (0/"0" ok; 1/2/5/101 in either form and "2xx" query
error; 3 authentication failure; 4 and "3xx" quota exceeded; anything
else query error). -/
theorem baidu_status_table :
    ∀ v : JsonValue, isStatusValue v = true →
      statusOutcome (Baidu.check_status v) = baiduSpecKind v := by
  intro v hv
  cases v with
  | null => rfl
  | bool b => simp [isStatusValue] at hv
  | num q => simp [isStatusValue] at hv
  | arr items => simp [isStatusValue] at hv
  | obj fields => simp [isStatusValue] at hv
  | int n =>
    by_cases h0 : n = 0
    · subst h0; rfl
    by_cases h1 : n = 1
    · subst h1; rfl
    by_cases h2 : n = 2
    · subst h2; rfl
    by_cases h3 : n = 3
    · subst h3; rfl
    by_cases h4 : n = 4
    · subst h4; rfl
    by_cases h5 : n = 5
    · subst h5; rfl
    by_cases h101 : n = 101
    · subst h101; rfl
    by_cases h102 : n = 102
    · subst h102; rfl
    have hL : statusOutcome (Baidu.check_status (.int n)) = .queryError := by
      simp [Baidu.check_status, pyEqStr, pyEqInt, h0, h1, h2, h3, h4, h5,
        h101, h102, statusOutcome]
    have hR : baiduSpecKind (.int n) = .queryError := by
      simp [baiduSpecKind, isInt, isStr, h0, h1, h2, h3, h4, h5, h101]
    rw [hL, hR]
  | str s =>
    by_cases h0 : s = "0"
    · subst h0; rfl
    by_cases h1 : s = "1"
    · subst h1; rfl
    by_cases h2 : s = "2"
    · subst h2; rfl
    by_cases h3 : s = "3"
    · subst h3; rfl
    by_cases h4 : s = "4"
    · subst h4; rfl
    by_cases h5 : s = "5"
    · subst h5; rfl
    by_cases h101 : s = "101"
    · subst h101; rfl
    by_cases h102 : s = "102"
    · subst h102; rfl
    by_cases h2xx : s = "2xx"
    · subst h2xx; rfl
    by_cases h3xx : s = "3xx"
    · subst h3xx; rfl
    have hL : statusOutcome (Baidu.check_status (.str s)) = .queryError := by
      simp [Baidu.check_status, pyEqStr, pyEqInt, h0, h1, h2, h3, h4, h5,
        h101, h102, h2xx, h3xx, statusOutcome]
    have hR : baiduSpecKind (.str s) = .queryError := by
      simp [baiduSpecKind, isInt, isStr, h0, h1, h2, h3, h4, h5, h101,
        h2xx, h3xx]
    rw [hL, hR]

/-- C3 witness: the table theorem applied at the concrete status "3xx". -/
theorem baidu_status_table_witness :
    isStatusValue (.str "3xx") = true ∧
    statusOutcome (Baidu.check_status (.str "3xx")) = baiduSpecKind (.str "3xx") :=
  ⟨rfl, baidu_status_table (.str "3xx") rfl⟩

/-- C2 counterexample: the status "20004" lies in the claimed quota range
"20000"–"20803", yet GaoDe's status check raises `GeocoderQueryError`
(the fallback), not `GeocoderQuotaExceeded`. -/
theorem gaode_status_20004_query_error :
    GaoDe.check_status (.str "20004")
      = .error (.GeocoderQueryError "Unknown error") ∧
    statusOutcome (GaoDe.check_status (.str "20004")) ≠ .quotaExceeded := by
  constructor
  · rfl
  · intro h
    simp [GaoDe.check_status, pyEqStr, statusOutcome] at h

/-- C2 (amended): GaoDe's status-check function maps every status string
exactly as the amended table states: "10000" ok; "10001"/"10002"
authentication failure; "10003", "10004", "10009"–"10017",
"20000"–"20003", "20800"–"20803" and "300**" quota exceeded;
"10005"–"10008" query error; everything else query error. -/
theorem gaode_status_table_amended :
    ∀ s : String,
      statusOutcome (GaoDe.check_status (.str s)) = gaodeSpecKind s := by
  intro s
  by_cases e00 : s = "10000"
  · subst e00; rfl
  by_cases e01 : s = "10001"
  · subst e01; rfl
  by_cases e02 : s = "10002"
  · subst e02; rfl
  by_cases e03 : s = "10003"
  · subst e03; rfl
  by_cases e04 : s = "10004"
  · subst e04; rfl
  by_cases e05 : s = "10005"
  · subst e05; rfl
  by_cases e06 : s = "10006"
  · subst e06; rfl
  by_cases e07 : s = "10007"
  · subst e07; rfl
  by_cases e08 : s = "10008"
  · subst e08; rfl
  by_cases e09 : s = "10009"
  · subst e09; rfl
  by_cases e10 : s = "10010"
  · subst e10; rfl
  by_cases e11 : s = "10011"
  · subst e11; rfl
  by_cases e12 : s = "10012"
  · subst e12; rfl
  by_cases e13 : s = "10013"
  · subst e13; rfl
  by_cases e14 : s = "10014"
  · subst e14; rfl
  by_cases e15 : s = "10015"
  · subst e15; rfl
  by_cases e16 : s = "10016"
  · subst e16; rfl
  by_cases e17 : s = "10017"
  · subst e17; rfl
  by_cases f00 : s = "20000"
  · subst f00; rfl
  by_cases f01 : s = "20001"
  · subst f01; rfl
  by_cases f02 : s = "20002"
  · subst f02; rfl
  by_cases f03 : s = "20003"
  · subst f03; rfl
  by_cases g00 : s = "20800"
  · subst g00; rfl
  by_cases g01 : s = "20801"
  · subst g01; rfl
  by_cases g02 : s = "20802"
  · subst g02; rfl
  by_cases g03 : s = "20803"
  · subst g03; rfl
  by_cases hstar : s = "300**"
  · subst hstar; rfl
  have hL : statusOutcome (GaoDe.check_status (.str s)) = .queryError := by
    simp [GaoDe.check_status, pyEqStr, e00, e01, e02, e03, e04, e05, e06,
      e07, e08, e09, e10, e11, e12, e13, e14, e15, e16, e17, f00, f01,
      f02, f03, g00, g01, g02, g03, hstar, statusOutcome]
  have hR : gaodeSpecKind s = .queryError := by
    simp [gaodeSpecKind, e00, e01, e02, e03, e04, e05, e06, e07, e08, e09,
      e10, e11, e12, e13, e14, e15, e16, e17, f00, f01, f02, f03, g00,
      g01, g02, g03, hstar]
  rw [hL, hR]

/-- C5: for each provider, the statuses its table marks as success do not
raise, and every status value outside its known table (in the sense of
Python equality) raises `GeocoderQueryError` via the fallback branch. -/
theorem success_and_unknown_statuses :
    (statusOutcome (Baidu.check_status (.int 0)) = .ok ∧
     statusOutcome (Baidu.check_status (.str "0")) = .ok ∧
     statusOutcome (GaoDe.check_status (.str "10000")) = .ok ∧
     statusOutcome (Tencent.check_status (.int 0)) = .ok) ∧
    (∀ v : JsonValue, baiduKnownStatus v = false →
      Baidu.check_status v = .error (.GeocoderQueryError "Unknown error")) ∧
    (∀ v : JsonValue, gaodeKnownStatus v = false →
      GaoDe.check_status v = .error (.GeocoderQueryError "Unknown error")) ∧
    (∀ v : JsonValue, tencentKnownStatus v = false →
      Tencent.check_status v = .error (.GeocoderQueryError "Unknown error")) := by
  refine ⟨⟨rfl, rfl, rfl, rfl⟩, ?_, ?_, ?_⟩
  · intro v h
    simp only [baiduKnownStatus, Bool.or_eq_false_iff] at h
    simp_all [Baidu.check_status]
  · intro v h
    simp only [gaodeKnownStatus, Bool.or_eq_false_iff] at h
    simp_all [GaoDe.check_status]
  · intro v h
    simp only [tencentKnownStatus, Bool.or_eq_false_iff] at h
    simp_all [Tencent.check_status]

/-- C5 witness: unknown statuses for the three providers, checked through
the theorem. -/
theorem success_and_unknown_statuses_witness :
    baiduKnownStatus (.str "bogus") = false ∧
    Baidu.check_status (.str "bogus")
      = .error (.GeocoderQueryError "Unknown error") ∧
    gaodeKnownStatus (.int 42) = false ∧
    GaoDe.check_status (.int 42)
      = .error (.GeocoderQueryError "Unknown error") ∧
    tencentKnownStatus (.str "0") = false ∧
    Tencent.check_status (.str "0")
      = .error (.GeocoderQueryError "Unknown error") :=
  ⟨rfl, success_and_unknown_statuses.2.1 _ rfl,
   rfl, success_and_unknown_statuses.2.2.1 _ rfl,
   rfl, success_and_unknown_statuses.2.2.2 _ rfl⟩

/-- C9: parsing the spec's GaoDe example (status "10000", one geocode
entry with formatted_address "X" and location "-77.1,38.9") yields one
result whose longitude is "-77.1" (the first comma-separated component)
and whose latitude is "38.9" (the second). -/
theorem gaode_geocode_example :
    GaoDe.parse_json gaodeExamplePage true
      = .ok (.loc ⟨.str "X", .str "38.9", .str "-77.1", gaodeExamplePlace⟩) :=
  rfl

/-- C1: reverse-geocoding the point (39.9, 116.4) with GaoDe returns a
`Location` whose latitude is the input longitude "116.4" and whose
longitude is the input latitude "39.9" — the reused coordinates come back
swapped, because `_parse_reverse_json` reads `point[1]` as latitude and
`point[0]` as longitude out of the "lat,lng"-formatted request string. -/
theorem gaode_reverse_swaps_input_coordinates :
    GaoDe.reverse "39.9" "116.4" gaodeReversePage
      = .ok ⟨.str "X", .str "116.4", .str "39.9", gaodeReversePlace⟩ ∧
    Location.latitude ⟨.str "X", .str "116.4", .str "39.9", gaodeReversePlace⟩
      ≠ .str "39.9" := by
  refine ⟨rfl, ?_⟩
  intro h
  injection h with h2
  exact absurd h2 (by decide)

/-- C10: Tencent's status check recognizes success only for the integer 0
(the string "0" falls through to the `GeocoderQueryError` fallback), while
Baidu's status check treats the integer and string forms of each of its
known codes identically. -/
theorem tencent_string_zero_not_success :
    Tencent.check_status (.str "0")
      = .error (.GeocoderQueryError "Unknown error") ∧
    statusOutcome (Tencent.check_status (.str "0")) = .queryError ∧
    Baidu.check_status (.int 0) = Baidu.check_status (.str "0") ∧
    Baidu.check_status (.int 1) = Baidu.check_status (.str "1") ∧
    Baidu.check_status (.int 2) = Baidu.check_status (.str "2") ∧
    Baidu.check_status (.int 3) = Baidu.check_status (.str "3") ∧
    Baidu.check_status (.int 4) = Baidu.check_status (.str "4") ∧
    Baidu.check_status (.int 5) = Baidu.check_status (.str "5") ∧
    Baidu.check_status (.int 101) = Baidu.check_status (.str "101") ∧
    Baidu.check_status (.int 102) = Baidu.check_status (.str "102") :=
  ⟨rfl, rfl, rfl, rfl, rfl, rfl, rfl, rfl, rfl, rfl⟩

/-- C7: for each provider, a response whose result field is absent or
falsy but whose status field is a success code parses to Python `None`
without raising. -/
theorem empty_result_success_yields_none :
    ∀ (fields : List (String × JsonValue)) (b : Bool),
      (truthy ((fields.lookup "result").getD .null) = false →
        ((fields.lookup "status").getD .null = .int 0 ∨
         (fields.lookup "status").getD .null = .str "0") →
        Baidu.parse_json (.obj fields) b = .ok .pyNone) ∧
      (truthy ((fields.lookup "geocodes").getD .null) = false →
        (fields.lookup "infocode").getD .null = .str "10000" →
        GaoDe.parse_json (.obj fields) b = .ok .pyNone) ∧
      (truthy ((fields.lookup "result").getD .null) = false →
        (fields.lookup "status").getD .null = .int 0 →
        Tencent.parse_json (.obj fields) b = .ok .pyNone) := by
  intro fields b
  refine ⟨?_, ?_, ?_⟩
  · intro h1 h2
    rcases h2 with h2 | h2 <;>
      simp [Baidu.parse_json, pyGet, h1, h2, Baidu.check_status,
        pyEqStr, pyEqInt]
  · intro h1 h2
    simp [GaoDe.parse_json, pyGet, h1, h2, GaoDe.check_status, pyEqStr]
  · intro h1 h2
    simp [Tencent.parse_json, pyGet, h1, h2, Tencent.check_status, pyEqInt]

/-- C7 witness: the three parsers applied to a concrete success response
without a result field. -/
theorem empty_result_success_yields_none_witness :
    Baidu.parse_json emptyOkPage true = .ok .pyNone ∧
    GaoDe.parse_json emptyOkPage true = .ok .pyNone ∧
    Tencent.parse_json emptyOkPage true = .ok .pyNone :=
  have h := empty_result_success_yields_none
    [("status", .int 0), ("infocode", .str "10000")] true
  ⟨h.1 rfl (Or.inl rfl), h.2.1 rfl rfl, h.2.2 rfl rfl⟩

/-- C6 counterexample: with `exactly_one=false`, parsing a Baidu geocode
response with a success status and no results returns Python `None`,
not a list. -/
theorem geocode_empty_not_a_list :
    Baidu.parse_json emptyOkPage false = .ok .pyNone ∧
    ¬ ∃ ls : List Location,
        Baidu.parse_json emptyOkPage false = .ok (.locs ls) := by
  refine ⟨rfl, ?_⟩
  rintro ⟨ls, h⟩
  rw [show Baidu.parse_json emptyOkPage false = .ok .pyNone from rfl] at h
  injection h with h2
  exact ParseValue.noConfusion h2

/-- C6 (amended): for each provider's geocode parser, `exactly_one=true`
yields a single result or Python `None`, and `exactly_one=false` yields a
list when the response has results and Python `None` (not a list) when it
has none. -/
theorem geocode_result_shape :
    ∀ page : JsonValue,
      (∀ r, Baidu.parse_json page true = .ok r →
        r = .pyNone ∨ ∃ l, r = .loc l) ∧
      (∀ r, Baidu.parse_json page false = .ok r →
        r = .pyNone ∨ ∃ ls, r = .locs ls) ∧
      (∀ r, GaoDe.parse_json page true = .ok r →
        r = .pyNone ∨ ∃ l, r = .loc l) ∧
      (∀ r, GaoDe.parse_json page false = .ok r →
        r = .pyNone ∨ ∃ ls, r = .locs ls) ∧
      (∀ r, Tencent.parse_json page true = .ok r →
        r = .pyNone ∨ ∃ l, r = .loc l) ∧
      (∀ r, Tencent.parse_json page false = .ok r →
        r = .pyNone ∨ ∃ ls, r = .locs ls) := by
  intro page
  refine ⟨?_, ?_, ?_, ?_, ?_, ?_⟩
  · intro r h
    unfold Baidu.parse_json at h
    repeat' split at h
    all_goals cases h
    all_goals first
      | exact Or.inl rfl
      | exact Or.inr ⟨_, rfl⟩
      | simp_all
  · intro r h
    unfold Baidu.parse_json at h
    repeat' split at h
    all_goals cases h
    all_goals first
      | exact Or.inl rfl
      | exact Or.inr ⟨_, rfl⟩
      | simp_all
  · intro r h
    unfold GaoDe.parse_json at h
    repeat' split at h
    all_goals cases h
    all_goals first
      | exact Or.inl rfl
      | exact Or.inr ⟨_, rfl⟩
      | simp_all
  · intro r h
    unfold GaoDe.parse_json at h
    repeat' split at h
    all_goals cases h
    all_goals first
      | exact Or.inl rfl
      | exact Or.inr ⟨_, rfl⟩
      | simp_all
  · intro r h
    unfold Tencent.parse_json at h
    repeat' split at h
    all_goals cases h
    all_goals first
      | exact Or.inl rfl
      | exact Or.inr ⟨_, rfl⟩
      | simp_all
  · intro r h
    unfold Tencent.parse_json at h
    repeat' split at h
    all_goals cases h
    all_goals first
      | exact Or.inl rfl
      | exact Or.inr ⟨_, rfl⟩
      | simp_all

/-- C6 witness: the shape theorem applied to a concrete one-result Baidu
response parsed with `exactly_one=true`. -/
theorem geocode_result_shape_witness :
    (ParseValue.loc ⟨.str "道路", .num 39, .num 116, baiduOnePlace⟩)
        = .pyNone ∨
      ∃ l, (ParseValue.loc ⟨.str "道路", .num 39, .num 116, baiduOnePlace⟩)
        = .loc l :=
  (geocode_result_shape baiduOnePage).1 _ rfl

/-- On a well-formed search hit, `parse_place_search` returns the parsed
`Location` exactly when the hit has a `location` field, and Python `None`
otherwise. -/
theorem parse_place_search_spec (e : JsonValue)
    (he : goodSearchEntry e = true) :
    Baidu.parse_place_search e
      = .ok (if hasLocationKey e then some (baiduSearchLoc e) else none) := by
  cases e with
  | null => simp [goodSearchEntry] at he
  | bool b => simp [goodSearchEntry] at he
  | int n => simp [goodSearchEntry] at he
  | num q => simp [goodSearchEntry] at he
  | str s => simp [goodSearchEntry] at he
  | arr items => simp [goodSearchEntry] at he
  | obj fields =>
    simp only [goodSearchEntry] at he
    cases hl : fields.lookup "location" with
    | none =>
      simp [Baidu.parse_place_search, pyGet, pyContains, hl, hasLocationKey]
    | some lv =>
      rw [hl] at he
      cases lv with
      | null => simp at he
      | bool b => simp at he
      | int n => simp at he
      | num q => simp at he
      | str s => simp at he
      | arr items => simp at he
      | obj lf =>
        simp only [Bool.and_eq_true] at he
        obtain ⟨hlat, hlng⟩ := he
        obtain ⟨la, hla⟩ := Option.isSome_iff_exists.mp hlat
        obtain ⟨ln, hln⟩ := Option.isSome_iff_exists.mp hlng
        simp [Baidu.parse_place_search, pyGet, pyContains, pySubscript,
          hl, hla, hln, hasLocationKey, baiduSearchLoc, objGetD]

/-- On a list of well-formed search hits, the accumulation loop keeps
exactly the hits that have a `location` field, in order. -/
theorem search_collect_spec (items : List JsonValue)
    (h : ∀ e ∈ items, goodSearchEntry e = true) :
    Baidu.search_collect items
      = .ok ((items.filter (fun e => hasLocationKey e)).map baiduSearchLoc) := by
  induction items with
  | nil => rfl
  | cons e rest ih =>
    have he : goodSearchEntry e = true := h e (List.mem_cons_self e rest)
    have hrest : ∀ x ∈ rest, goodSearchEntry x = true :=
      fun x hx => h x (List.mem_cons_of_mem e hx)
    unfold Baidu.search_collect
    rw [parse_place_search_spec e he, ih hrest]
    by_cases hk : hasLocationKey e = true
    · simp [hk, List.filter_cons]
    · simp [hk, List.filter_cons]

/-- C8: parsing a Baidu search response with `exactly_one=false` drops
exactly the hits that lack a `location` field: the returned list is the
image of the hits that have one, in order. -/
theorem baidu_search_filters_missing_location :
    ∀ entries : List JsonValue, entries ≠ [] →
      (∀ e ∈ entries, goodSearchEntry e = true) →
      Baidu.parse_search_json (.obj [("results", .arr entries)]) false
        = .ok (.locs
            ((entries.filter (fun e => hasLocationKey e)).map baiduSearchLoc)) := by
  intro entries hne hgood
  have ht : truthy (.arr entries) = true := by
    cases entries with
    | nil => exact absurd rfl hne
    | cons a as => rfl
  unfold Baidu.parse_search_json
  have hg : pyGet (.obj [("results", JsonValue.arr entries)]) "results"
      = .ok (.arr entries) := rfl
  rw [hg]
  simp [ht, pyIter, search_collect_spec entries hgood]

/-- C8 witness: a two-hit response where only the first hit has a
`location` field parses to a one-element list. -/
theorem baidu_search_filters_missing_location_witness :
    Baidu.parse_search_json
        (.obj [("results", .arr [searchEntryWith, searchEntryWithout])]) false
      = .ok (.locs [baiduSearchLoc searchEntryWith]) := by
  have h := baidu_search_filters_missing_location
    [searchEntryWith, searchEntryWithout]
    (List.cons_ne_nil _ _)
    (by
      intro e he
      simp only [List.mem_cons, List.not_mem_nil, or_false] at he
      rcases he with rfl | rfl <;> rfl)
  exact h
